import Mathlib

/-!
Verification of the registry / config-builder / AutoAugment fragment of the
BasicTAD repository (files `vedacore/misc/registry.py` and
`vedatad/datasets/pipelines/auto_augment.py`), via a shallow embedding of the
Python code into Lean.

Python dictionaries are modelled as insertion-ordered association lists with
unique keys; Python exceptions are modelled with `Except`; the process-wide
singleton state of `Registry` is modelled with an explicit state record.
-/

namespace BasicTAD

/-! ## Python dict model (insertion-ordered association list) -/

/-- Association-list model of a Python `dict`.  Keys are strings; entries are
kept in insertion order and, for well-formed dicts, keys are unique. -/
abbrev Dict (α : Type) := List (String × α)

namespace Dict

/-- `d[k]` / `d.get(k)`: first entry whose key is `k`. -/
def lookup (d : Dict α) (k : String) : Option α :=
  match d with
  | [] => none
  | (k', v) :: rest => if k' = k then some v else lookup rest k

/-- `k in d`. -/
def containsKey (d : Dict α) (k : String) : Bool :=
  (Dict.lookup d k).isSome

/-- `d[k] = v`: replace in place if the key is present, append otherwise. -/
def setItem (d : Dict α) (k : String) (v : α) : Dict α :=
  if Dict.containsKey d k then
    d.map (fun kv => if kv.1 = k then (k, v) else kv)
  else
    d ++ [(k, v)]

/-- `d.setdefault(k, v)`: insert `v` only when `k` is absent. -/
def setdefault (d : Dict α) (k : String) (v : α) : Dict α :=
  if Dict.containsKey d k then d else d ++ [(k, v)]

/-- `d.pop(k)` with the key known present: value together with the dict
without that entry. -/
def popEntry (d : Dict α) (k : String) : Option α × Dict α :=
  (Dict.lookup d k, d.filter (fun kv => kv.1 ≠ k))

/-- Well-formed Python dict: keys are pairwise distinct. -/
def WF (d : Dict α) : Prop := (d.map Prod.fst).Nodup

end Dict

/-! ## Values, classes and errors -/

/-- A Python class value, identified by its `__name__` and an identity tag so
that distinct classes with equal names can be told apart. -/
structure PyClass where
  name : String
  id : Nat
deriving DecidableEq, Repr

/-- Python scalar values that appear in configuration dicts. -/
inductive PyVal where
  | str (s : String)
  | int (n : Int)
  | cls (c : PyClass)
deriving DecidableEq, Repr

/-- Exceptions raised by the embedded fragment. -/
inductive PyErr where
  | typeError (msg : String)
  | keyError (msg : String)
  | assertionError (msg : String)
deriving DecidableEq, Repr

instance {ε α : Type} [DecidableEq ε] [DecidableEq α] : DecidableEq (Except ε α)
  | .ok a, .ok b =>
    if h : a = b then .isTrue (h ▸ rfl) else .isFalse (fun hh => h (Except.ok.inj hh))
  | .error a, .error b =>
    if h : a = b then .isTrue (h ▸ rfl) else .isFalse (fun hh => h (Except.error.inj hh))
  | .ok _, .error _ => .isFalse (fun hh => Except.noConfusion hh)
  | .error _, .ok _ => .isFalse (fun hh => Except.noConfusion hh)

/-! ## Registry (`vedacore/misc/registry.py`) -/

/-- The two-level `_module_dict`: module category name → (class name → class). -/
abbrev ModuleDict := Dict (Dict PyClass)

namespace Registry

/-- `Registry.get(cls_name, module_name)`: raises `KeyError` when the module
category is absent, raises `KeyError` when the class name is not registered
in it, and returns the class otherwise. -/
def get (md : ModuleDict) (cls_name : String) (module_name : String) :
    Except PyErr PyClass :=
  match Dict.lookup md module_name with
  | none => .error (.keyError (module_name ++ " is not in registry"))
  | some dd =>
    match Dict.lookup dd cls_name with
    | none => .error (.keyError
        (cls_name ++ " is not registered in " ++ module_name))
    | some c => .ok c

/-- `Registry.__len__`: `len(self._module_dict)`, the number of top-level
entries of the two-level mapping. -/
def lenImpl (md : ModuleDict) : Nat := md.length

/-- Total number of registered classes across all categories (what
`__len__` does NOT return). -/
def totalClasses (md : ModuleDict) : Nat :=
  (md.map (fun kv => kv.2.length)).sum

/-- `Registry.__contains__(key)`: `return self.get(key) is not None`.  The
call `self.get(key)` uses the default `module_name='module'` and raises on
failure; since the exception is not caught here, `__contains__` either
returns `True` or propagates the `KeyError`. -/
def containsImpl (md : ModuleDict) (key : String) : Except PyErr Bool :=
  match get md key "module" with
  | .error e => .error e
  | .ok _ => .ok true

/-- Argument passed to `_register_module`: either a class, or some non-class
value (identified only by the text `type(cls)` would print). -/
inductive Registrand where
  | isClass (c : PyClass)
  | notClass (tyname : String)
deriving DecidableEq, Repr

/-- `Registry._register_module(cls, module_name)`.  Returns the raised
exception (if any) together with the `_module_dict` state after the call,
so that partial mutation on failure is observable. -/
def registerModule (md : ModuleDict) (obj : Registrand) (module_name : String) :
    Except PyErr Unit × ModuleDict :=
  match obj with
  | .notClass tyname =>
    (.error (.typeError ("module must be a class, but got " ++ tyname)), md)
  | .isClass c =>
    let md1 := Dict.setdefault md module_name []
    let dd := (Dict.lookup md1 module_name).getD []
    if Dict.containsKey dd c.name then
      (.error (.keyError
        (c.name ++ " is already registered in " ++ module_name)), md1)
    else
      (.ok (), Dict.setItem md1 module_name (Dict.setItem dd c.name c))

end Registry

/-! ## Singleton construction (`Registry.__new__` / `Registry.__init__`)

A call `Registry()` runs `type.__call__`: first `__new__`, which allocates a
fresh object only when `cls._instance is None` and otherwise returns the
cached instance, then — because `__new__` returned an instance of the class —
`__init__`, which executes `self._module_dict = dict()` unconditionally. -/

/-- Process-wide state relevant to `Registry` construction: how many objects
`__new__` has ever allocated, and the `_module_dict` of the singleton
instance (`none` while `cls._instance is None`). -/
structure RegProcState where
  allocs : Nat
  inst : Option ModuleDict
deriving DecidableEq, Repr

/-- `Registry.__new__`: allocate only when no instance exists.  The fresh
object has no `_module_dict` attribute yet; `[]` stands for the state it gets
immediately afterwards from `__init__` (observable state is set below). -/
def registryNew (s : RegProcState) : RegProcState :=
  match s.inst with
  | none => { allocs := s.allocs + 1, inst := some [] }
  | some _ => s

/-- `Registry.__init__`: `self._module_dict = dict()` on the (unique)
instance, unconditionally. -/
def registryInit (s : RegProcState) : RegProcState :=
  { s with inst := some [] }

/-- One construction request `Registry()`: `__new__` then `__init__`. -/
def registryConstruct (s : RegProcState) : RegProcState :=
  registryInit (registryNew s)

/-- Registration through the singleton instance, for states where the
instance exists. -/
def registerOnSingleton (s : RegProcState) (obj : Registry.Registrand)
    (module_name : String) : RegProcState :=
  match s.inst with
  | none => s
  | some md => { s with inst := some (Registry.registerModule md obj module_name).2 }

/-! ## `build_from_cfg` -/

/-- The `cfg` / `default_args` arguments of `build_from_cfg`: a dict, Python
`None`, or some other non-dict value (identified by the text `type(x)` would
print). -/
inductive PyArg where
  | dict (d : Dict PyVal)
  | pynone
  | other (tyname : String)
deriving DecidableEq, Repr

/-- The `registry` argument of `build_from_cfg`: either a `Registry` instance
(carrying its `_module_dict`) or some other value. -/
inductive RegArg where
  | registry (md : ModuleDict)
  | other (tyname : String)
deriving DecidableEq, Repr

/-- The result of `obj_cls(**args)`: which class was called and with which
keyword arguments. -/
structure Instance where
  cls : PyClass
  kwargs : Dict PyVal
deriving DecidableEq, Repr

/-- Modelled from the spec: `is_str` comes from `vedacore/misc/utils.py`,
which is not among the provided sources; per the spec the popped `typename`
"must be a string, else TypeError-class failure", so `is_str` tests whether a
value is a string. -/
def is_str : PyVal → Bool
  | .str _ => true
  | _ => false

/-- `build_from_cfg(cfg, registry, module_name='module', default_args=None)`:
validates the argument shapes in source order, copies `cfg`, pops
`'typename'`, resolves the class through the registry, injects each
`default_args` entry with `setdefault`, and "calls" the class on the merged
keyword arguments. -/
def build_from_cfg (cfg : PyArg) (registry : RegArg)
    (module_name : String := "module") (default_args : PyArg := .pynone) :
    Except PyErr Instance :=
  match cfg with
  | .pynone => .error (.typeError "cfg must be a dict, but got NoneType")
  | .other tyname => .error (.typeError ("cfg must be a dict, but got " ++ tyname))
  | .dict c =>
    if Dict.containsKey c "typename" then
      match registry with
      | .other tyname =>
        .error (.typeError ("registry must be a registry object, but got " ++ tyname))
      | .registry md =>
        match default_args with
        | .other tyname =>
          .error (.typeError ("default_args must be a dict or None, but got " ++ tyname))
        | .pynone =>
          match (Dict.popEntry c "typename").1 with
          | some obj_type =>
            if is_str obj_type then
              match obj_type with
              | .str s =>
                match Registry.get md s module_name with
                | .error e => .error e
                | .ok obj_cls => .ok ⟨obj_cls, (Dict.popEntry c "typename").2⟩
              | _ => .error (.typeError "type must be a str")
            else .error (.typeError "type must be a str")
          | none => .error (.keyError "typename")
        | .dict dflt =>
          match (Dict.popEntry c "typename").1 with
          | some obj_type =>
            if is_str obj_type then
              match obj_type with
              | .str s =>
                match Registry.get md s module_name with
                | .error e => .error e
                | .ok obj_cls =>
                  .ok ⟨obj_cls,
                    dflt.foldl (fun a kv => Dict.setdefault a kv.1 kv.2)
                      (Dict.popEntry c "typename").2⟩
              | _ => .error (.typeError "type must be a str")
            else .error (.typeError "type must be a str")
          | none => .error (.keyError "typename")
    else
      .error (.keyError "the cfg dict must contain the key typename")

/-- Written from the claim's words (NOT from the source), for comparison:
"the union of the cfg's non-typename entries and the default_args entries
whose keys are absent from cfg". -/
def claimMerge (c : Dict PyVal) (dflt : Dict PyVal) : Dict PyVal :=
  c.filter (fun kv => kv.1 ≠ "typename") ++
    dflt.filter (fun kv => ¬ Dict.containsKey c kv.1)

/-! ## `AutoAugment` (`vedatad/datasets/pipelines/auto_augment.py`) -/

/-- Nested Python data as it reaches `AutoAugment.__init__`: the `policies`
argument is an arbitrary value, validated at runtime. -/
inductive PyData where
  | str (s : String)
  | int (n : Int)
  | list (xs : List PyData)
  | dict (entries : List (String × PyData))

/-- Key lookup in a `PyData.dict` entry list (Python `'k' in d`). -/
def pdContains (entries : List (String × PyData)) (k : String) : Bool :=
  entries.any (fun kv => kv.1 = k)

/-- Modelled from the spec: `Compose` comes from
`vedatad/datasets/pipelines/compose.py`, which is not among the provided
sources.  Per the spec it is "constructed from an ordered sequence of
configuration records" and "applies each sub-transform in the policy's
declared order", with composition semantics external; it is modelled as
retaining the ordered sequence it was built from, application being an
abstract parameter of the call model. -/
structure Compose where
  transforms_cfg : List PyData

/-- `Compose(policy)` for a policy value (the element lists of a validated
`policies` argument are Python lists). -/
def composeOf : PyData → Compose
  | .list as => ⟨as⟩
  | other => ⟨[other]⟩

/-- State of a constructed `AutoAugment` object: the deep-copied `policies`
and the pre-built pipelines, one per policy. -/
structure AAState where
  policies : List PyData
  transforms : List Compose

/-- The `assert isinstance(augment, dict) and 'type' in augment` check for
one sub-transform. -/
def checkAugment : PyData → Except PyErr Unit
  | .dict d =>
    if pdContains d "type" then .ok ()
    else .error (.assertionError
      "Each specific augmentation must be a dict with key type.")
  | _ => .error (.assertionError
      "Each specific augmentation must be a dict with key type.")

/-- Run a check over each element of a Python list, propagating the first
failure (the `for` loops of `AutoAugment.__init__`). -/
def checkAll (f : PyData → Except PyErr Unit) : List PyData → Except PyErr Unit
  | [] => .ok ()
  | x :: xs =>
    match f x with
    | .error e => .error e
    | .ok () => checkAll f xs

/-- The `assert isinstance(policy, list) and len(policy) > 0` check plus the
inner loop over the policy's sub-transforms. -/
def checkPolicy : PyData → Except PyErr Unit
  | .list as =>
    if as.length > 0 then checkAll checkAugment as
    else .error (.assertionError "Each policy in policies must be a non-empty list.")
  | _ => .error (.assertionError "Each policy in policies must be a non-empty list.")

/-- `AutoAugment.__init__(policies)`: validate, deep-copy into
`self.policies` (value semantics here; the aliasing content of the deep copy
is modelled separately on a heap below), and build one `Compose` per
policy into `self.transforms`. -/
def autoAugmentInit (policies : PyData) : Except PyErr AAState :=
  match policies with
  | .list ps =>
    if ps.length > 0 then
      match checkAll checkPolicy ps with
      | .error e => .error e
      | .ok () => .ok ⟨ps, ps.map composeOf⟩
    else .error (.assertionError "Policies must be a non-empty list.")
  | _ => .error (.assertionError "Policies must be a non-empty list.")

/-- Written from the claim's words (NOT from the source), for comparison:
a valid sub-transform is "a dict containing the key 'type'". -/
def augmentValidSpec : PyData → Bool
  | .dict d => pdContains d "type"
  | _ => false

/-- Written from the claim's words (NOT from the source): a valid policy is
"a non-empty list" of valid sub-transforms. -/
def policyValidSpec : PyData → Bool
  | .list as => decide (as.length > 0) && as.all augmentValidSpec
  | _ => false

/-- Written from the claim's words (NOT from the source): "policies is a
non-empty list of non-empty lists of dicts each containing the key
'type'". -/
def policiesValidSpec : PyData → Bool
  | .list ps => decide (ps.length > 0) && ps.all policyValidSpec
  | _ => false

/-- `np.random.choice(transforms)` given the uniformly drawn index `u`
(numpy's documented semantics: a single uniform draw over the sequence). -/
def npRandomChoice (l : List Compose) (u : Fin l.length) : Compose :=
  l.get u

/-- `AutoAugment.__call__(results)`: select one pre-built pipeline with the
uniform draw `u` and return the result of applying that single pipeline.
`app` abstracts the external composed-pipeline application. -/
def autoAugmentCall (st : AAState) (app : Compose → PyData → PyData)
    (u : Fin st.transforms.length) (results : PyData) : PyData :=
  app (npRandomChoice st.transforms u) results

/-! ## Object heap for the `copy.deepcopy` contract

Python's in-place mutation of lists and dicts is modelled with an explicit
object heap: addresses are indices into a list of nodes, lists and dicts
store the addresses of their elements, and a mutation overwrites one node.
`copy.deepcopy` allocates a fresh isomorphic subgraph at the end of the
heap, so every address reachable from the copy is an address that did not
exist before the copy. -/

/-- A heap node: scalar, list of element addresses, or dict of keyed
addresses. -/
inductive Node where
  | strN (s : String)
  | intN (n : Int)
  | listN (elems : List Nat)
  | dictN (entries : List (String × Nat))
deriving DecidableEq, Repr

/-- The object heap; the address of a node is its index. -/
abbrev Heap := List Node

/-- Read a list of addresses with the given per-address reader, failing if
any fails. -/
def readNodes (f : Nat → Option PyData) : List Nat → Option (List PyData)
  | [] => some []
  | a :: as =>
    match f a, readNodes f as with
    | some v, some vs => some (v :: vs)
    | _, _ => none

/-- Read dict entries with the given per-address reader. -/
def readEntries (f : Nat → Option PyData) :
    List (String × Nat) → Option (List (String × PyData))
  | [] => some []
  | (k, a) :: es =>
    match f a, readEntries f es with
    | some v, some vs => some ((k, v) :: vs)
    | _, _ => none

/-- Read the value rooted at address `a`, with `fuel` bounding the depth
(cyclic or too-deep structures read as `none`). -/
def readVal : Nat → Heap → Nat → Option PyData
  | 0, _, _ => none
  | fuel + 1, h, a =>
    match h[a]? with
    | some (.strN s) => some (.str s)
    | some (.intN n) => some (.int n)
    | some (.listN elems) => (readNodes (fun b => readVal fuel h b) elems).map .list
    | some (.dictN es) => (readEntries (fun b => readVal fuel h b) es).map .dict
    | none => none

mutual

/-- Lay out a fresh copy of value `v` starting at address `base`: the list
of new nodes (to be placed at `base`, `base + 1`, …) together with the root
address of the copy. -/
def writeVal : PyData → Nat → List Node × Nat
  | .str s, _base => ([.strN s], _base)
  | .int n, _base => ([.intN n], _base)
  | .list xs, base =>
    ((writeList xs base).1 ++ [.listN (writeList xs base).2],
      base + (writeList xs base).1.length)
  | .dict es, base =>
    ((writeDict es base).1 ++ [.dictN (writeDict es base).2],
      base + (writeDict es base).1.length)

/-- Lay out fresh copies of the values `xs` starting at `base`: new nodes
plus the root address of each copy. -/
def writeList : List PyData → Nat → List Node × List Nat
  | [], _ => ([], [])
  | v :: vs, base =>
    ((writeVal v base).1 ++ (writeList vs (base + (writeVal v base).1.length)).1,
      (writeVal v base).2 :: (writeList vs (base + (writeVal v base).1.length)).2)

/-- Lay out fresh copies of the dict entries `es` starting at `base`. -/
def writeDict : List (String × PyData) → Nat → List Node × List (String × Nat)
  | [], _ => ([], [])
  | (k, v) :: es, base =>
    ((writeVal v base).1 ++ (writeDict es (base + (writeVal v base).1.length)).1,
      (k, (writeVal v base).2) ::
        (writeDict es (base + (writeVal v base).1.length)).2)

end

/-- `copy.deepcopy` of the value `v` (already read from the caller's
object): append a fresh isomorphic subgraph and return the new heap with
the copy's root address. -/
def deepcopy (h : Heap) (v : PyData) : Heap × Nat :=
  ((h ++ (writeVal v h.length).1), (writeVal v h.length).2)

/-- One in-place mutation: overwrite the node at an existing address. -/
def applyUpdates (h : Heap) (us : List (Nat × Node)) : Heap :=
  us.foldl (fun hh u => hh.set u.1 u.2) h

/-- `AutoAugment.__init__` on the heap: read the caller's `policies` object
at address `a`, validate it, and store `self.policies = copy.deepcopy(...)`;
returns the new heap and the stored root address (``none`` when the address
does not read back within `fuel`). -/
def autoAugmentInitHeap (h : Heap) (a : Nat) (fuel : Nat) :
    Option (Except PyErr (Heap × Nat)) :=
  match readVal fuel h a with
  | none => none
  | some v =>
    match autoAugmentInit v with
    | .error e => some (.error e)
    | .ok _ => some (.ok (deepcopy h v))

/-- The pre-built pipelines of an `AutoAugment` whose stored `policies`
reads back as `v`: one `Compose` per policy, in order. -/
def transformsOfVal : PyData → List Compose
  | .list ps => ps.map composeOf
  | _ => []

/-- `H` agrees with the node block `ns` placed at `base`. -/
def Agrees (H : Heap) (base : Nat) (ns : List Node) : Prop :=
  ∀ i, i < ns.length → H[base + i]? = ns[i]?

/-! ## Dict lemmas -/

namespace Dict

theorem lookup_nil (k : String) : Dict.lookup ([] : Dict α) k = none := rfl

theorem lookup_cons (kv : String × α) (rest : Dict α) (k : String) :
    Dict.lookup (kv :: rest) k =
      (if kv.1 = k then some kv.2 else Dict.lookup rest k) := by
  cases kv
  rfl

theorem lookup_append (d1 d2 : Dict α) (k : String) :
    Dict.lookup (d1 ++ d2) k = ((Dict.lookup d1 k).or (Dict.lookup d2 k)) := by
  induction d1 with
  | nil => simp [lookup_nil]
  | cons kv rest ih =>
    by_cases h : kv.1 = k <;> simp [lookup_cons, h, ih]

theorem containsKey_eq_isSome_lookup (d : Dict α) (k : String) :
    Dict.containsKey d k = (Dict.lookup d k).isSome := rfl

theorem lookup_map_replace (d : Dict α) (k : String) (v : α) :
    Dict.lookup (d.map (fun kv => if kv.1 = k then (k, v) else kv)) k =
      (if (Dict.lookup d k).isSome then some v else none) := by
  induction d with
  | nil => simp [lookup_nil]
  | cons kv rest ih =>
    by_cases h : kv.1 = k <;> simp [lookup_cons, h, ih]

theorem lookup_map_replace_ne (d : Dict α) (k k' : String) (v : α)
    (hne : k' ≠ k) :
    Dict.lookup (d.map (fun kv => if kv.1 = k then (k, v) else kv)) k' =
      Dict.lookup d k' := by
  induction d with
  | nil => simp [lookup_nil]
  | cons kv rest ih =>
    by_cases h : kv.1 = k
    · have hkk : ¬ (k = k') := fun hh => hne hh.symm
      simp [lookup_cons, h, hkk, ih]
    · simp [lookup_cons, h, ih]

theorem lookup_eq_none_of_not_contains (d : Dict α) (k : String)
    (h : Dict.containsKey d k = false) : Dict.lookup d k = none := by
  rw [containsKey_eq_isSome_lookup] at h
  exact Option.not_isSome_iff_eq_none.mp (by simp [h])

theorem lookup_setItem_self (d : Dict α) (k : String) (v : α) :
    Dict.lookup (Dict.setItem d k v) k = some v := by
  unfold setItem
  by_cases h : Dict.containsKey d k
  · rw [if_pos h, lookup_map_replace]
    rw [containsKey_eq_isSome_lookup] at h
    simp [h]
  · rw [if_neg h, lookup_append]
    have hnone := lookup_eq_none_of_not_contains d k (by simpa using h)
    simp [hnone, lookup_cons]

theorem lookup_setItem_ne (d : Dict α) (k k' : String) (v : α)
    (hne : k' ≠ k) :
    Dict.lookup (Dict.setItem d k v) k' = Dict.lookup d k' := by
  unfold setItem
  by_cases h : Dict.containsKey d k
  · rw [if_pos h, lookup_map_replace_ne _ _ _ _ hne]
  · rw [if_neg h, lookup_append]
    have hkk : ¬ (k = k') := fun hh => hne hh.symm
    simp [lookup_cons, lookup_nil, hkk]

theorem lookup_setdefault_self (d : Dict α) (k : String) (v : α) :
    Dict.lookup (Dict.setdefault d k v) k = ((Dict.lookup d k).or (some v)) := by
  unfold setdefault
  by_cases h : Dict.containsKey d k
  · rw [if_pos h]
    rw [containsKey_eq_isSome_lookup] at h
    obtain ⟨w, hw⟩ := Option.isSome_iff_exists.mp h
    simp [hw]
  · rw [if_neg h, lookup_append]
    have hnone := lookup_eq_none_of_not_contains d k (by simpa using h)
    simp [hnone, lookup_cons]

theorem lookup_setdefault_ne (d : Dict α) (k k' : String) (v : α)
    (hne : k' ≠ k) :
    Dict.lookup (Dict.setdefault d k v) k' = Dict.lookup d k' := by
  unfold setdefault
  by_cases h : Dict.containsKey d k
  · rw [if_pos h]
  · rw [if_neg h, lookup_append]
    have hkk : ¬ (k = k') := fun hh => hne hh.symm
    simp [lookup_cons, lookup_nil, hkk]

theorem setdefault_of_contains (d : Dict α) (k : String) (v : α)
    (h : Dict.containsKey d k = true) : Dict.setdefault d k v = d := by
  unfold setdefault
  simp [h]

end Dict

/-! ## Registry lemmas -/

/-- Sample classes used in concrete instantiations. -/
def fooCls : PyClass := ⟨"Foo", 0⟩

def barCls : PyClass := ⟨"Bar", 1⟩

/-- A registry state with one category holding two classes. -/
def mdColl : ModuleDict := [("cat", [("Foo", fooCls), ("Bar", barCls)])]

theorem getD_or_nil (o : Option (Dict PyClass)) :
    ((o.or (some ([] : Dict PyClass))).getD []) = o.getD [] := by
  cases o <;> rfl

/-- Shape of a successful `_register_module` call. -/
theorem registerModule_ok_eq (md : ModuleDict) (cat : String) (c : PyClass)
    (h : Dict.containsKey ((Dict.lookup md cat).getD []) c.name = false) :
    Registry.registerModule md (.isClass c) cat =
      (.ok (), Dict.setItem (Dict.setdefault md cat []) cat
        (Dict.setItem ((Dict.lookup md cat).getD []) c.name c)) := by
  unfold Registry.registerModule
  have hdd : (Dict.lookup (Dict.setdefault md cat []) cat).getD [] =
      (Dict.lookup md cat).getD [] := by
    rw [Dict.lookup_setdefault_self, getD_or_nil]
  simp only [hdd, h]
  simp

/-- Shape of a duplicate-registration `_register_module` call. -/
theorem registerModule_dup_eq (md : ModuleDict) (cat : String) (c : PyClass)
    (h : Dict.containsKey ((Dict.lookup md cat).getD []) c.name = true) :
    Registry.registerModule md (.isClass c) cat =
      (.error (.keyError (c.name ++ " is already registered in " ++ cat)),
        Dict.setdefault md cat []) := by
  unfold Registry.registerModule
  have hdd : (Dict.lookup (Dict.setdefault md cat []) cat).getD [] =
      (Dict.lookup md cat).getD [] := by
    rw [Dict.lookup_setdefault_self, getD_or_nil]
  simp only [hdd, h]
  simp

/-! ## Claim theorems: Registry -/

/-- Claim C1 (code bug, demonstration): the spec says every `Registry()`
construction request after the first is a no-op that leaves the existing
instance's `module_dict` unchanged.  In the code, `__new__` does return the
cached instance (no new allocation: `allocs` stays at 1), but Python then
runs `__init__` on it, which resets `_module_dict` to the empty dict, wiping
the earlier registration of `Foo`. -/
theorem c1_reconstruction_resets_module_dict :
    (registryConstruct { allocs := 0, inst := none }).inst = some [] ∧
    (registerOnSingleton (registryConstruct { allocs := 0, inst := none })
        (.isClass fooCls) "cat").inst = some [("cat", [("Foo", fooCls)])] ∧
    (registryConstruct (registerOnSingleton
        (registryConstruct { allocs := 0, inst := none })
        (.isClass fooCls) "cat")).allocs =
      (registerOnSingleton (registryConstruct { allocs := 0, inst := none })
        (.isClass fooCls) "cat").allocs ∧
    (registryConstruct (registerOnSingleton
        (registryConstruct { allocs := 0, inst := none })
        (.isClass fooCls) "cat")).inst = some [] ∧
    ¬ ((registryConstruct (registerOnSingleton
        (registryConstruct { allocs := 0, inst := none })
        (.isClass fooCls) "cat")).inst =
      (registerOnSingleton (registryConstruct { allocs := 0, inst := none })
        (.isClass fooCls) "cat").inst) := by
  refine ⟨rfl, rfl, rfl, rfl, ?_⟩
  decide

/-- Claim C2 (code bug, demonstration): the spec says `contains(key)`
converts lookup failure into `False`.  In the code, `__contains__` returns
`True` exactly when `get` succeeds, but when `get` fails it propagates the
`KeyError` instead of returning `False` — on every input it either returns
`True` or raises, never `False`; e.g. on the empty registry, `'X' in
registry` raises `KeyError`. -/
theorem c2_contains_propagates_lookup_failure :
    (∀ (md : ModuleDict) (key : String),
      (∃ c, Registry.get md key "module" = .ok c ∧
        Registry.containsImpl md key = .ok true) ∨
      (∃ e, Registry.get md key "module" = .error e ∧
        Registry.containsImpl md key = .error e)) ∧
    Registry.containsImpl [] "X" =
      .error (.keyError "module is not in registry") := by
  constructor
  · intro md key
    cases hg : Registry.get md key "module" with
    | ok c => exact .inl ⟨c, rfl, by simp [Registry.containsImpl, hg]⟩
    | error e => exact .inr ⟨e, rfl, by simp [Registry.containsImpl, hg]⟩
  · rfl

/-- Claim C7: `__len__` returns the number of module categories (the
top-level key count of the two-level mapping), not the total number of
registered classes: on a registry with one category holding two classes it
returns 1, not 2. -/
theorem c7_len_counts_categories_not_classes :
    (∀ md : ModuleDict, Registry.lenImpl md = (md.map Prod.fst).length) ∧
    Registry.lenImpl mdColl = 1 ∧ Registry.totalClasses mdColl = 2 :=
  ⟨fun md => by simp [Registry.lenImpl], rfl, rfl⟩

/-- Claim C10: registration is atomic on failure — whenever
`_register_module` raises (non-class argument, or duplicate class name in
the category), the `_module_dict` after the call equals the one before it.
(On the duplicate path the `setdefault` that runs before the raise is a
no-op, because a duplicate can only exist in a category that already
exists.) -/
theorem c10_register_failure_preserves_module_dict :
    ∀ (md : ModuleDict) (obj : Registry.Registrand) (cat : String) (e : PyErr),
      (Registry.registerModule md obj cat).1 = .error e →
      (Registry.registerModule md obj cat).2 = md := by
  intro md obj cat e h
  cases obj with
  | notClass t => rfl
  | isClass c =>
    by_cases hdup : Dict.containsKey ((Dict.lookup md cat).getD []) c.name = true
    · rw [registerModule_dup_eq md cat c hdup]
      by_cases hc : Dict.containsKey md cat
      · simpa using Dict.setdefault_of_contains md cat [] hc
      · exfalso
        have hnone := Dict.lookup_eq_none_of_not_contains md cat (by simpa using hc)
        rw [hnone] at hdup
        simp [Dict.containsKey, Dict.lookup] at hdup
    · rw [registerModule_ok_eq md cat c (by simpa using hdup)] at h
      cases h

/-- Witness for C10: re-registering `Foo` in category `cat` raises, and the
registry state after the call is exactly the state before it. -/
theorem c10_register_failure_preserves_module_dict_witness :
    (Registry.registerModule [("cat", [("Foo", fooCls)])]
        (.isClass fooCls) "cat").1 =
      .error (.keyError "Foo is already registered in cat") ∧
    (Registry.registerModule [("cat", [("Foo", fooCls)])]
        (.isClass fooCls) "cat").2 = [("cat", [("Foo", fooCls)])] :=
  ⟨by decide,
    c10_register_failure_preserves_module_dict
      [("cat", [("Foo", fooCls)])] (.isClass fooCls) "cat"
      (.keyError "Foo is already registered in cat") (by decide)⟩

/-- Claim C4: registering a class whose name already exists in the given
category raises a `KeyError` (DuplicateRegistration); registering a
non-class value raises a `TypeError` (InvalidType); and registering the same
class name under two different categories succeeds independently, after
which the class is retrievable from both categories. -/
theorem c4_register_errors_and_category_independence :
    (∀ (md : ModuleDict) (tyname cat : String),
      (Registry.registerModule md (.notClass tyname) cat).1 =
        .error (.typeError ("module must be a class, but got " ++ tyname))) ∧
    (∀ (md : ModuleDict) (dd : Dict PyClass) (c : PyClass) (cat : String),
      Dict.lookup md cat = some dd → Dict.containsKey dd c.name = true →
      (Registry.registerModule md (.isClass c) cat).1 =
        .error (.keyError (c.name ++ " is already registered in " ++ cat))) ∧
    (∀ (md : ModuleDict) (c : PyClass) (cat1 cat2 : String),
      cat1 ≠ cat2 →
      Dict.containsKey ((Dict.lookup md cat1).getD []) c.name = false →
      Dict.containsKey ((Dict.lookup md cat2).getD []) c.name = false →
      (Registry.registerModule md (.isClass c) cat1).1 = .ok () ∧
      (Registry.registerModule
          (Registry.registerModule md (.isClass c) cat1).2
          (.isClass c) cat2).1 = .ok () ∧
      Registry.get (Registry.registerModule
          (Registry.registerModule md (.isClass c) cat1).2
          (.isClass c) cat2).2 c.name cat1 = .ok c ∧
      Registry.get (Registry.registerModule
          (Registry.registerModule md (.isClass c) cat1).2
          (.isClass c) cat2).2 c.name cat2 = .ok c) := by
  refine ⟨fun md tyname cat => rfl, ?_, ?_⟩
  · intro md dd c cat hlk hdup
    rw [registerModule_dup_eq md cat c (by rw [hlk]; exact hdup)]
  · intro md c cat1 cat2 hne h1 h2
    have r1 := registerModule_ok_eq md cat1 c h1
    have hm1lk2 :
        Dict.lookup (Registry.registerModule md (.isClass c) cat1).2 cat2 =
          Dict.lookup md cat2 := by
      rw [r1]
      simp only
      rw [Dict.lookup_setItem_ne _ _ _ _ (fun hh => hne hh.symm),
        Dict.lookup_setdefault_ne _ _ _ _ (fun hh => hne hh.symm)]
    have h2' : Dict.containsKey
        ((Dict.lookup (Registry.registerModule md (.isClass c) cat1).2 cat2).getD [])
          c.name = false := by rw [hm1lk2]; exact h2
    have r2 := registerModule_ok_eq
      (Registry.registerModule md (.isClass c) cat1).2 cat2 c h2'
    refine ⟨by rw [r1], by rw [r2], ?_, ?_⟩
    · -- lookup of cat1 in the final state goes through untouched layers
      rw [r2]
      unfold Registry.get
      simp only
      rw [Dict.lookup_setItem_ne _ _ _ _ hne,
        Dict.lookup_setdefault_ne _ _ _ _ hne, r1]
      simp only
      rw [Dict.lookup_setItem_self]
      simp only [Option.getD_some]
      rw [Dict.lookup_setItem_self]
    · rw [r2]
      unfold Registry.get
      simp only
      rw [Dict.lookup_setItem_self]
      simp only [Option.getD_some]
      rw [Dict.lookup_setItem_self]

/-- Witness for C4: concrete instances of all three parts — non-class
registration fails, duplicate registration of `Foo` in `cat` fails, and
registering `Foo` under `cat1` then `cat2` succeeds with `Foo` retrievable
from both. -/
theorem c4_register_errors_and_category_independence_witness :
    (Registry.registerModule [] (.notClass "int") "cat").1 =
      .error (.typeError "module must be a class, but got int") ∧
    (Registry.registerModule [("cat", [("Foo", fooCls)])]
        (.isClass fooCls) "cat").1 =
      .error (.keyError "Foo is already registered in cat") ∧
    ((Registry.registerModule [] (.isClass fooCls) "cat1").1 = .ok () ∧
      (Registry.registerModule
          (Registry.registerModule [] (.isClass fooCls) "cat1").2
          (.isClass fooCls) "cat2").1 = .ok () ∧
      Registry.get (Registry.registerModule
          (Registry.registerModule [] (.isClass fooCls) "cat1").2
          (.isClass fooCls) "cat2").2 fooCls.name "cat1" = .ok fooCls ∧
      Registry.get (Registry.registerModule
          (Registry.registerModule [] (.isClass fooCls) "cat1").2
          (.isClass fooCls) "cat2").2 fooCls.name "cat2" = .ok fooCls) :=
  ⟨c4_register_errors_and_category_independence.1 [] "int" "cat",
    c4_register_errors_and_category_independence.2.1
      [("cat", [("Foo", fooCls)])] [("Foo", fooCls)] fooCls "cat"
      (by decide) (by decide),
    c4_register_errors_and_category_independence.2.2 [] fooCls "cat1" "cat2"
      (by decide) (by decide) (by decide)⟩

/-! ## Claim theorems: `build_from_cfg` -/

theorem lookup_foldl_setdefault (dflt : Dict PyVal) (a : Dict PyVal) (k : String) :
    Dict.lookup (dflt.foldl (fun acc kv => Dict.setdefault acc kv.1 kv.2) a) k =
      ((Dict.lookup a k).or (Dict.lookup dflt k)) := by
  induction dflt generalizing a with
  | nil => simp [Dict.lookup_nil]
  | cons kv rest ih =>
    rw [List.foldl_cons, ih, Dict.lookup_cons]
    by_cases h : kv.1 = k
    · subst h
      rw [Dict.lookup_setdefault_self]
      cases Dict.lookup a kv.1 <;> simp
    · rw [Dict.lookup_setdefault_ne _ _ _ _ (fun hh => h hh.symm)]
      simp [h]

theorem lookup_filter_key (c : Dict PyVal) (k k' : String) :
    Dict.lookup (c.filter (fun kv => kv.1 ≠ k)) k' =
      (if k' = k then none else Dict.lookup c k') := by
  induction c with
  | nil => by_cases h : k' = k <;> simp [Dict.lookup_nil, h]
  | cons kv rest ih =>
    by_cases hk : kv.1 = k
    · have hp : decide (kv.1 ≠ k) = false := by simp [hk]
      rw [List.filter_cons, hp]
      simp only [Bool.false_eq_true, if_false]
      rw [ih, Dict.lookup_cons]
      by_cases hkk : k' = k
      · simp [hkk]
      · have hne : ¬ (kv.1 = k') := fun hh => hkk (hh.symm.trans hk)
        simp [hkk, hne]
    · have hp : decide (kv.1 ≠ k) = true := by simp [hk]
      rw [List.filter_cons, hp]
      simp only [if_true]
      rw [Dict.lookup_cons, Dict.lookup_cons, ih]
      by_cases hkk : kv.1 = k'
      · have hne : ¬ (k' = k) := fun hh => hk (hkk.trans hh)
        simp [hkk, hne]
      · simp [hkk]

/-- Claim C3 counterexample: take cfg = {'typename': 'Foo'} and
default_args = {'typename': 'Foo'}, with `Foo` registered under `cat`.
The claim's merged mapping is empty (cfg has no non-typename entry, and the
only default key, 'typename', is present in cfg), so the claim predicts
`Foo()` with no keyword arguments; the code pops 'typename' before the
`setdefault` loop and therefore re-injects it from the defaults, calling
`Foo(typename='Foo')`. -/
theorem c3_counterexample_default_typename_reinjected :
    build_from_cfg (.dict [("typename", .str "Foo")])
        (.registry [("cat", [("Foo", fooCls)])]) "cat"
        (.dict [("typename", .str "Foo")]) =
      .ok ⟨fooCls, [("typename", .str "Foo")]⟩ ∧
    claimMerge [("typename", .str "Foo")] [("typename", .str "Foo")] = [] ∧
    ¬ (build_from_cfg (.dict [("typename", .str "Foo")])
        (.registry [("cat", [("Foo", fooCls)])]) "cat"
        (.dict [("typename", .str "Foo")]) =
      .ok ⟨fooCls,
        claimMerge [("typename", .str "Foo")] [("typename", .str "Foo")]⟩) := by
  refine ⟨rfl, rfl, ?_⟩
  decide

/-- Claim C3 (amended): with `typename ↦ 'Foo'` in cfg and `Foo` registered
under the category, the builder calls the resolved class with keyword
arguments that agree with cfg on every key cfg holds (cfg values take
precedence on shared keys) and with default_args on every other key absent
from cfg — except that the key 'typename' itself, removed from cfg by the
`pop`, is taken from default_args when present there (it is absent from the
kwargs only when default_args does not hold it). -/
theorem c3_build_merges_cfg_over_defaults (c dflt : Dict PyVal)
    (md : ModuleDict) (cat tn : String) (cls : PyClass)
    (htn : Dict.lookup c "typename" = some (.str tn))
    (hget : Registry.get md tn cat = .ok cls) :
    ∃ args : Dict PyVal,
      build_from_cfg (.dict c) (.registry md) cat (.dict dflt) =
        .ok ⟨cls, args⟩ ∧
      (∀ k, k ≠ "typename" →
        Dict.lookup args k = ((Dict.lookup c k).or (Dict.lookup dflt k))) ∧
      Dict.lookup args "typename" = Dict.lookup dflt "typename" := by
  have hc : Dict.containsKey c "typename" = true := by
    rw [Dict.containsKey_eq_isSome_lookup, htn]
    rfl
  refine ⟨dflt.foldl (fun acc kv => Dict.setdefault acc kv.1 kv.2)
    (Dict.popEntry c "typename").2, ?_, ?_, ?_⟩
  · simp [build_from_cfg, hc, Dict.popEntry, htn, is_str, hget]
  · intro k hk
    rw [lookup_foldl_setdefault]
    unfold Dict.popEntry
    simp only
    rw [lookup_filter_key, if_neg hk]
  · rw [lookup_foldl_setdefault]
    unfold Dict.popEntry
    simp only
    rw [lookup_filter_key, if_pos rfl]
    simp

/-- Witness for C3 (amended): the claim's own example — cfg
{'typename': 'Foo', 'a': 1} with defaults {'a': 99, 'b': 2} yields
`Foo(a=1, b=2)`: the explicit value of `a` wins, `b` is filled from the
defaults — plus the instantiated merge description. -/
theorem c3_build_merges_cfg_over_defaults_witness :
    build_from_cfg (.dict [("typename", .str "Foo"), ("a", .int 1)])
        (.registry [("cat", [("Foo", fooCls)])]) "cat"
        (.dict [("a", .int 99), ("b", .int 2)]) =
      .ok ⟨fooCls, [("a", .int 1), ("b", .int 2)]⟩ ∧
    (∃ args : Dict PyVal,
      build_from_cfg (.dict [("typename", .str "Foo"), ("a", .int 1)])
          (.registry [("cat", [("Foo", fooCls)])]) "cat"
          (.dict [("a", .int 99), ("b", .int 2)]) = .ok ⟨fooCls, args⟩ ∧
      (∀ k, k ≠ "typename" →
        Dict.lookup args k =
          ((Dict.lookup [("typename", .str "Foo"), ("a", .int 1)] k).or
            (Dict.lookup [("a", .int 99), ("b", .int 2)] k))) ∧
      Dict.lookup args "typename" =
        Dict.lookup [("a", .int 99), ("b", .int 2)] "typename") :=
  ⟨by decide,
    c3_build_merges_cfg_over_defaults
      [("typename", .str "Foo"), ("a", .int 1)]
      [("a", .int 99), ("b", .int 2)]
      [("cat", [("Foo", fooCls)])] "cat" "Foo" fooCls (by decide) (by decide)⟩

/-- Claim C6: `build_from_cfg` fails fast — `TypeError` when cfg is not a
dict (including `None`), when the registry argument is not a `Registry`,
when `default_args` is neither a dict nor `None`, or when the typename value
is not a string; and `KeyError` when cfg lacks the key 'typename' — in
particular on cfg = {'a': 1} with all defaults. -/
theorem c6_build_from_cfg_validation :
    (∀ (tyname cat : String) (reg : RegArg) (da : PyArg),
      build_from_cfg (.other tyname) reg cat da =
        .error (.typeError ("cfg must be a dict, but got " ++ tyname))) ∧
    (∀ (cat : String) (reg : RegArg) (da : PyArg),
      build_from_cfg .pynone reg cat da =
        .error (.typeError "cfg must be a dict, but got NoneType")) ∧
    (∀ (c : Dict PyVal) (cat : String) (reg : RegArg) (da : PyArg),
      Dict.containsKey c "typename" = false →
      build_from_cfg (.dict c) reg cat da =
        .error (.keyError "the cfg dict must contain the key typename")) ∧
    (∀ (c : Dict PyVal) (cat tyname : String) (da : PyArg),
      Dict.containsKey c "typename" = true →
      build_from_cfg (.dict c) (.other tyname) cat da =
        .error (.typeError ("registry must be a registry object, but got " ++ tyname))) ∧
    (∀ (c : Dict PyVal) (md : ModuleDict) (cat tyname : String),
      Dict.containsKey c "typename" = true →
      build_from_cfg (.dict c) (.registry md) cat (.other tyname) =
        .error (.typeError ("default_args must be a dict or None, but got " ++ tyname))) ∧
    (∀ (c : Dict PyVal) (md : ModuleDict) (cat : String) (v : PyVal),
      Dict.lookup c "typename" = some v → is_str v = false →
      (build_from_cfg (.dict c) (.registry md) cat .pynone =
          .error (.typeError "type must be a str") ∧
        ∀ dflt : Dict PyVal,
          build_from_cfg (.dict c) (.registry md) cat (.dict dflt) =
            .error (.typeError "type must be a str"))) ∧
    build_from_cfg (.dict [("a", .int 1)])
        (.registry [("cat", [("Foo", fooCls)])]) "module" .pynone =
      .error (.keyError "the cfg dict must contain the key typename") := by
  refine ⟨fun tyname cat reg da => rfl, fun cat reg da => rfl, ?_, ?_, ?_, ?_, rfl⟩
  · intro c cat reg da h
    simp [build_from_cfg, h]
  · intro c cat tyname da h
    simp [build_from_cfg, h]
  · intro c md cat tyname h
    simp [build_from_cfg, h]
  · intro c md cat v hlk hstr
    have hc : Dict.containsKey c "typename" = true := by
      rw [Dict.containsKey_eq_isSome_lookup, hlk]
      rfl
    constructor
    · simp [build_from_cfg, hc, Dict.popEntry, hlk, hstr]
    · intro dflt
      simp [build_from_cfg, hc, Dict.popEntry, hlk, hstr]

/-- Witness for C6: concrete instances of every validation failure —
non-dict cfg, `None` cfg, cfg without 'typename', non-registry registry
argument, non-dict default_args, and a non-string typename value. -/
theorem c6_build_from_cfg_validation_witness :
    build_from_cfg (.other "int") (.registry []) "module" .pynone =
      .error (.typeError "cfg must be a dict, but got int") ∧
    build_from_cfg .pynone (.registry []) "module" .pynone =
      .error (.typeError "cfg must be a dict, but got NoneType") ∧
    build_from_cfg (.dict [("a", .int 1)]) (.registry []) "module" .pynone =
      .error (.keyError "the cfg dict must contain the key typename") ∧
    build_from_cfg (.dict [("typename", .str "Foo")]) (.other "dict") "module" .pynone =
      .error (.typeError "registry must be a registry object, but got dict") ∧
    build_from_cfg (.dict [("typename", .str "Foo")]) (.registry []) "module"
        (.other "list") =
      .error (.typeError "default_args must be a dict or None, but got list") ∧
    build_from_cfg (.dict [("typename", .int 3)]) (.registry []) "module" .pynone =
      .error (.typeError "type must be a str") :=
  ⟨c6_build_from_cfg_validation.1 "int" "module" (.registry []) .pynone,
    c6_build_from_cfg_validation.2.1 "module" (.registry []) .pynone,
    c6_build_from_cfg_validation.2.2.1 [("a", .int 1)] "module" (.registry [])
      .pynone (by decide),
    c6_build_from_cfg_validation.2.2.2.1 [("typename", .str "Foo")] "module"
      "dict" .pynone (by decide),
    c6_build_from_cfg_validation.2.2.2.2.1 [("typename", .str "Foo")] [] "module"
      "list" (by decide),
    (c6_build_from_cfg_validation.2.2.2.2.2.1 [("typename", .int 3)] [] "module"
      (.int 3) (by decide) (by decide)).1⟩

/-! ## Claim theorems: `AutoAugment` construction and call -/

@[simp] theorem exceptToOption_ok {ε α : Type} (a : α) :
    (Except.ok a : Except ε α).toOption = some a := rfl

@[simp] theorem exceptToOption_error {ε α : Type} (e : ε) :
    (Except.error e : Except ε α).toOption = none := rfl

theorem checkAll_isOk (f : PyData → Except PyErr Unit) (xs : List PyData) :
    (checkAll f xs).toOption.isSome =
      xs.all (fun x => (f x).toOption.isSome) := by
  induction xs with
  | nil => rfl
  | cons x rest ih =>
    cases hfx : f x with
    | error e => simp [checkAll, hfx]
    | ok u =>
      cases u
      simp [checkAll, hfx, ih]

theorem checkAugment_isOk (x : PyData) :
    (checkAugment x).toOption.isSome = augmentValidSpec x := by
  cases x with
  | dict d =>
    by_cases h : pdContains d "type" = true
    · simp [checkAugment, augmentValidSpec, h]
    · simp only [Bool.not_eq_true] at h
      simp [checkAugment, augmentValidSpec, h]
  | str s => rfl
  | int n => rfl
  | list xs => rfl

theorem checkPolicy_isOk (x : PyData) :
    (checkPolicy x).toOption.isSome = policyValidSpec x := by
  cases x with
  | list as =>
    by_cases h : as.length > 0
    · have : (checkPolicy (.list as)) = checkAll checkAugment as := by
        simp [checkPolicy, h]
      rw [this, checkAll_isOk]
      have hall : as.all (fun x => (checkAugment x).toOption.isSome) =
          as.all augmentValidSpec := by
        congr 1
        funext x
        exact checkAugment_isOk x
      rw [hall]
      simp [policyValidSpec, h]
    · simp [checkPolicy, h, policyValidSpec]
  | str s => rfl
  | int n => rfl
  | dict d => rfl

/-- Claim C5: `AutoAugment` construction succeeds exactly when `policies`
is a non-empty list of non-empty lists of dicts each containing the key
'type'; in particular `AutoAugment([])` and `AutoAugment([[]])` raise
`AssertionError` and `AutoAugment([[{'type': 'X'}]])` succeeds. -/
theorem c5_autoaugment_init_validation :
    (∀ p : PyData,
      (autoAugmentInit p).toOption.isSome = policiesValidSpec p) ∧
    autoAugmentInit (.list []) =
      .error (.assertionError "Policies must be a non-empty list.") ∧
    autoAugmentInit (.list [.list []]) =
      .error (.assertionError "Each policy in policies must be a non-empty list.") ∧
    (autoAugmentInit
      (.list [.list [.dict [("type", .str "X")]]])).toOption.isSome = true := by
  refine ⟨?_, rfl, rfl, rfl⟩
  intro p
  cases p with
  | list ps =>
    by_cases h : ps.length > 0
    · have hred : autoAugmentInit (.list ps) =
          (match checkAll checkPolicy ps with
            | .error e => .error e
            | .ok () => .ok ⟨ps, ps.map composeOf⟩) := by
        simp [autoAugmentInit, h]
      rw [hred]
      cases hca : checkAll checkPolicy ps with
      | error e =>
        have := checkAll_isOk checkPolicy ps
        rw [hca] at this
        have hall : ps.all (fun x => (checkPolicy x).toOption.isSome) =
            ps.all policyValidSpec := by
          congr 1
          funext x
          exact checkPolicy_isOk x
        rw [hall] at this
        simp [policiesValidSpec, ← this]
      | ok u =>
        cases u
        have := checkAll_isOk checkPolicy ps
        rw [hca] at this
        have hall : ps.all (fun x => (checkPolicy x).toOption.isSome) =
            ps.all policyValidSpec := by
          congr 1
          funext x
          exact checkPolicy_isOk x
        rw [hall] at this
        simp [policiesValidSpec, ← this, h]
    · simp [autoAugmentInit, h, policiesValidSpec]
  | str s => rfl
  | int n => rfl
  | dict d => rfl

/-- The state produced by a successful `AutoAugment.__init__`: the policies
list itself, with one pipeline per policy. -/
theorem autoAugmentInit_ok_shape (p : PyData) (st : AAState)
    (h : autoAugmentInit p = .ok st) :
    ∃ ps : List PyData, p = .list ps ∧ 0 < ps.length ∧
      st.policies = ps ∧ st.transforms = ps.map composeOf := by
  cases p with
  | list ps =>
    by_cases hlen : ps.length > 0
    · have hred : autoAugmentInit (.list ps) =
          (match checkAll checkPolicy ps with
            | .error e => .error e
            | .ok () => .ok ⟨ps, ps.map composeOf⟩) := by
        simp [autoAugmentInit, hlen]
      rw [hred] at h
      cases hca : checkAll checkPolicy ps with
      | error e => rw [hca] at h; cases h
      | ok u =>
        cases u
        rw [hca] at h
        refine ⟨ps, rfl, hlen, ?_, ?_⟩ <;> cases h <;> rfl
    · simp [autoAugmentInit, hlen] at h
  | str s => cases h
  | int n => cases h
  | dict d => cases h

/-- Claim C9: a call on a constructed `AutoAugment` with `N` policies has
one pre-built pipeline per policy (`N` pipelines, `N > 0`); given the
uniform index draw `u` of `np.random.choice` it returns exactly the result
of applying the single pipeline at index `u` to the record; and each policy
index is selected with probability `1/N` — summing the uniform draw weight
`1/N` over the draws that select index `i` gives `1/N` for every `i`, with
no dependence on or exclusion from previous calls (the call reads no
mutable state). -/
theorem c9_call_selects_uniformly (p : PyData) (st : AAState)
    (h : autoAugmentInit p = .ok st) (app : Compose → PyData → PyData)
    (results : PyData) :
    0 < st.transforms.length ∧
    st.transforms.length = st.policies.length ∧
    (∀ u : Fin st.transforms.length,
      autoAugmentCall st app u results =
        app (st.transforms.get u) results) ∧
    (∀ i : Fin st.transforms.length,
      ∑ u : Fin st.transforms.length,
        (if u = i then ((st.transforms.length : ℚ))⁻¹ else 0) =
        ((st.transforms.length : ℚ))⁻¹) := by
  obtain ⟨ps, rfl, hlen, hpol, htr⟩ := autoAugmentInit_ok_shape _ _ h
  refine ⟨?_, ?_, ?_, ?_⟩
  · rw [htr]
    simpa using hlen
  · rw [htr, hpol]
    simp
  · intro u
    rfl
  · intro i
    simp

/-- Witness for C9: an `AutoAugment` built from two one-transform policies;
with the identity as the external pipeline application, the call at each
draw returns the corresponding pipeline's output and each of the two
policies is selected with probability `1/2`. -/
theorem c9_call_selects_uniformly_witness :
    (autoAugmentInit (.list [.list [.dict [("type", .str "X")]],
        .list [.dict [("type", .str "Y")]]])).toOption.isSome = true ∧
    (∀ st : AAState,
      autoAugmentInit (.list [.list [.dict [("type", .str "X")]],
          .list [.dict [("type", .str "Y")]]]) = .ok st →
      0 < st.transforms.length ∧
      st.transforms.length = st.policies.length ∧
      (∀ u : Fin st.transforms.length,
        autoAugmentCall st (fun _ r => r) u (.dict []) =
          (fun _ r => r) (st.transforms.get u) (PyData.dict [])) ∧
      (∀ i : Fin st.transforms.length,
        ∑ u : Fin st.transforms.length,
          (if u = i then ((st.transforms.length : ℚ))⁻¹ else 0) =
          ((st.transforms.length : ℚ))⁻¹)) :=
  ⟨rfl, fun st h => c9_call_selects_uniformly
    (.list [.list [.dict [("type", .str "X")]],
      .list [.dict [("type", .str "Y")]]]) st h (fun _ r => r) (.dict [])⟩

/-! ## Claim theorems: deep-copy isolation on the heap -/

theorem agrees_left (H : Heap) (base : Nat) (ns1 ns2 : List Node)
    (h : Agrees H base (ns1 ++ ns2)) : Agrees H base ns1 := by
  intro i hi
  have h2 := h i (by simp; omega)
  rw [List.getElem?_append, if_pos hi] at h2
  exact h2

theorem agrees_right (H : Heap) (base : Nat) (ns1 ns2 : List Node)
    (h : Agrees H base (ns1 ++ ns2)) : Agrees H (base + ns1.length) ns2 := by
  intro i hi
  have h2 := h (ns1.length + i) (by simp; omega)
  rw [List.getElem?_append, if_neg (by omega)] at h2
  have e1 : base + (ns1.length + i) = base + ns1.length + i := by omega
  have e2 : ns1.length + i - ns1.length = i := by omega
  rw [e1, e2] at h2
  exact h2

theorem agrees_last (H : Heap) (base : Nat) (ns : List Node) (x : Node)
    (h : Agrees H base (ns ++ [x])) : H[base + ns.length]? = some x := by
  have h2 := h ns.length (by simp)
  rw [List.getElem?_append, if_neg (by omega)] at h2
  simpa using h2

theorem agrees_set (H : Heap) (base : Nat) (ns : List Node) (b : Nat) (n : Node)
    (hb : b < base) (h : Agrees H base ns) : Agrees (H.set b n) base ns := by
  intro i hi
  rw [List.getElem?_set_ne (by omega)]
  exact h i hi

theorem agrees_applyUpdates (H : Heap) (base : Nat) (ns : List Node)
    (us : List (Nat × Node)) (hus : ∀ u ∈ us, u.1 < base)
    (h : Agrees H base ns) : Agrees (applyUpdates H us) base ns := by
  induction us generalizing H with
  | nil => exact h
  | cons u rest ih =>
    have : applyUpdates H (u :: rest) = applyUpdates (H.set u.1 u.2) rest := rfl
    rw [this]
    exact ih (H.set u.1 u.2) (fun w hw => hus w (List.mem_cons_of_mem u hw))
      (agrees_set H base ns u.1 u.2 (hus u (List.mem_cons_self u rest)) h)

theorem agrees_append_self (h : Heap) (ns : List Node) :
    Agrees (h ++ ns) h.length ns := by
  intro i hi
  rw [List.getElem?_append, if_neg (by omega)]
  have e : h.length + i - h.length = i := by omega
  rw [e]

theorem one_le_sizeOf_pyData (v : PyData) : 1 ≤ sizeOf v := by
  cases v <;> simp_arith

mutual

/-- Reading the freshly written copy of `v` from any heap that agrees with
the written node block returns `v`. -/
theorem readVal_writeVal (v : PyData) (fuel base : Nat) (H : Heap)
    (hf : sizeOf v ≤ fuel) (ha : Agrees H base (writeVal v base).1) :
    readVal fuel H (writeVal v base).2 = some v := by
  cases fuel with
  | zero =>
    exact absurd (Nat.le_trans (one_le_sizeOf_pyData v) hf) (by omega)
  | succ f =>
    cases v with
    | str s =>
      have hroot : H[base]? = some (.strN s) := by
        have h0 := ha 0 (by simp [writeVal])
        simpa [writeVal] using h0
      simp [writeVal, readVal, hroot]
    | int n =>
      have hroot : H[base]? = some (.intN n) := by
        have h0 := ha 0 (by simp [writeVal])
        simpa [writeVal] using h0
      simp [writeVal, readVal, hroot]
    | list xs =>
      have ha' : Agrees H base
          ((writeList xs base).1 ++ [.listN (writeList xs base).2]) := by
        simpa [writeVal] using ha
      have hroot : H[base + (writeList xs base).1.length]? =
          some (.listN (writeList xs base).2) :=
        agrees_last H base (writeList xs base).1 _ ha'
      have hxs : readNodes (fun b => readVal f H b) (writeList xs base).2 =
          some xs :=
        readNodes_writeList xs f base H (by simp_arith at hf; omega)
          (agrees_left H base _ _ ha')
      simp [writeVal, readVal, hroot, hxs]
    | dict es =>
      have ha' : Agrees H base
          ((writeDict es base).1 ++ [.dictN (writeDict es base).2]) := by
        simpa [writeVal] using ha
      have hroot : H[base + (writeDict es base).1.length]? =
          some (.dictN (writeDict es base).2) :=
        agrees_last H base (writeDict es base).1 _ ha'
      have hes : readEntries (fun b => readVal f H b) (writeDict es base).2 =
          some es :=
        readEntries_writeDict es f base H (by simp_arith at hf; omega)
          (agrees_left H base _ _ ha')
      simp [writeVal, readVal, hroot, hes]
termination_by sizeOf v

/-- Element-wise version of `readVal_writeVal` for a block of list
elements. -/
theorem readNodes_writeList (xs : List PyData) (fuel base : Nat) (H : Heap)
    (hf : sizeOf xs ≤ fuel) (ha : Agrees H base (writeList xs base).1) :
    readNodes (fun b => readVal fuel H b) (writeList xs base).2 = some xs := by
  cases xs with
  | nil => rfl
  | cons v vs =>
    have hv : readVal fuel H (writeVal v base).2 = some v :=
      readVal_writeVal v fuel base H (by simp_arith at hf; omega)
        (agrees_left H base _ _ (by simpa [writeList] using ha))
    have hvs : readNodes (fun b => readVal fuel H b)
        (writeList vs (base + (writeVal v base).1.length)).2 = some vs :=
      readNodes_writeList vs fuel (base + (writeVal v base).1.length) H
        (by simp_arith at hf; omega)
        (agrees_right H base _ _ (by simpa [writeList] using ha))
    simp [writeList, readNodes, hv, hvs]
termination_by sizeOf xs

/-- Element-wise version of `readVal_writeVal` for a block of dict
entries. -/
theorem readEntries_writeDict (es : List (String × PyData)) (fuel base : Nat)
    (H : Heap) (hf : sizeOf es ≤ fuel)
    (ha : Agrees H base (writeDict es base).1) :
    readEntries (fun b => readVal fuel H b) (writeDict es base).2 = some es := by
  cases es with
  | nil => rfl
  | cons kv rest =>
    cases kv with
    | mk k v =>
      have hv : readVal fuel H (writeVal v base).2 = some v :=
        readVal_writeVal v fuel base H (by simp_arith at hf; omega)
          (agrees_left H base _ _ (by simpa [writeDict] using ha))
      have hrest : readEntries (fun b => readVal fuel H b)
          (writeDict rest (base + (writeVal v base).1.length)).2 = some rest :=
        readEntries_writeDict rest fuel (base + (writeVal v base).1.length) H
          (by simp_arith at hf; omega)
          (agrees_right H base _ _ (by simpa [writeDict] using ha))
      simp [writeDict, readEntries, hv, hrest]
termination_by sizeOf es

end

/-- Claim C8: the `policies` argument is deep-copied into internal storage.
On the object heap, every address the caller can reach through the original
`policies` object (the outer list, the nested policy lists, the sub-transform
dicts and their values) existed before construction, i.e. is `< h.length`,
while the deep copy lives entirely in freshly allocated addresses; hence any
sequence of in-place mutations of pre-existing objects after construction
leaves the stored copy reading back as exactly the value `v` that was passed
in, and the pre-built pipelines — one `Compose` per policy of the copied
value — are unchanged. -/
theorem c8_deepcopy_isolates_stored_policies (h : Heap) (a fuel : Nat)
    (v : PyData) (st : AAState) (us : List (Nat × Node))
    (hread : readVal fuel h a = some v)
    (hinit : autoAugmentInit v = .ok st)
    (hus : ∀ u ∈ us, u.1 < h.length) :
    autoAugmentInitHeap h a fuel = some (.ok (deepcopy h v)) ∧
    readVal (sizeOf v) (applyUpdates (deepcopy h v).1 us) (deepcopy h v).2 =
      some v ∧
    st.transforms = transformsOfVal v := by
  refine ⟨?_, ?_, ?_⟩
  · unfold autoAugmentInitHeap
    rw [hread]
    simp only [hinit]
  · have hagree : Agrees ((h ++ (writeVal v h.length).1)) h.length
        (writeVal v h.length).1 := agrees_append_self h (writeVal v h.length).1
    have hagree2 : Agrees
        (applyUpdates (h ++ (writeVal v h.length).1) us) h.length
        (writeVal v h.length).1 :=
      agrees_applyUpdates _ _ _ us hus hagree
    exact readVal_writeVal v (sizeOf v) h.length _ (Nat.le_refl _) hagree2
  · obtain ⟨ps, hv, hlen, hpol, htr⟩ := autoAugmentInit_ok_shape v st hinit
    rw [htr, hv]
    rfl

/-- Witness for C8: a heap holding `policies = [[{'type': 'X'}]]` at
address 3 (with the sub-transform dict at address 1); after construction,
the caller clears that dict in place, yet the stored deep copy still reads
back as the original value and the pipelines are those of the original
policies. -/
theorem c8_deepcopy_isolates_stored_policies_witness :
    readVal 4 [.strN "X", .dictN [("type", 0)], .listN [1], .listN [2]] 3 =
      some (.list [.list [.dict [("type", .str "X")]]]) ∧
    (autoAugmentInitHeap
        [.strN "X", .dictN [("type", 0)], .listN [1], .listN [2]] 3 4 =
      some (.ok (deepcopy
        [.strN "X", .dictN [("type", 0)], .listN [1], .listN [2]]
        (.list [.list [.dict [("type", .str "X")]]]))) ∧
    readVal (sizeOf (PyData.list [.list [.dict [("type", .str "X")]]]))
        (applyUpdates (deepcopy
          [.strN "X", .dictN [("type", 0)], .listN [1], .listN [2]]
          (.list [.list [.dict [("type", .str "X")]]])).1 [(1, .dictN [])])
        (deepcopy
          [.strN "X", .dictN [("type", 0)], .listN [1], .listN [2]]
          (.list [.list [.dict [("type", .str "X")]]])).2 =
      some (.list [.list [.dict [("type", .str "X")]]]) ∧
    ({ policies := [.list [.dict [("type", .str "X")]]],
       transforms := [⟨[.dict [("type", .str "X")]]⟩] } : AAState).transforms =
      transformsOfVal (.list [.list [.dict [("type", .str "X")]]])) :=
  ⟨rfl,
    c8_deepcopy_isolates_stored_policies
      [.strN "X", .dictN [("type", 0)], .listN [1], .listN [2]] 3 4
      (.list [.list [.dict [("type", .str "X")]]])
      { policies := [.list [.dict [("type", .str "X")]]],
        transforms := [⟨[.dict [("type", .str "X")]]⟩] }
      [(1, .dictN [])] rfl rfl
      (by intro u hu; simp at hu; rw [hu]; simp)⟩

end BasicTAD
